import Mathlib

/-!
Verification of the HTTP request builder/executor core of `go-message-bus`
(package `request`, file `src/unnamed/part_001`) against its specification.

Shallow embedding conventions:
* Go `string` is Lean `String`; `[]byte` is `List Nat` (each entry a byte value);
  `int`/`int64`/`time.Duration` are Lean `Int`.
* Go `url.Values` and `http.Header` (both `map[string][]string`) are modelled as
  association lists sorted by key.  Go maps are unordered, so the sorted list is
  the canonical representative of the map's extensional value; `Add`/`Set` are
  sorted insertions.
* `error` is `Option Err` with `Err := String` (the exception message).
  `exception.Wrap` from the vendored exception library returns `nil` for `nil`
  and otherwise preserves the cause, hence it is the identity on `Option Err`.
* The live network and the TLS key-pair loader are external effects; they are
  passed in as an explicit environment (`Env`).  Execution records the
  transport-resolution and `client.Do` steps in an event trace so that claims
  about "no network call" become statements about the trace.
* Functions that can panic in Go (index out of range, nil dereference) return
  `Option`, with `none` modelling the fault.
-/

/-- Go `[]byte`: a list of byte values. -/
abbrev Bytes := List Nat

/-- Error model: the exception message (`exception.New` / `exception.Wrap`
preserve the message and the cause). -/
abbrev Err := String

/-- The configuration error produced by `CreateHTTPRequest` (part_001:472). -/
def configurationError : Err := "Cant set both a body and have post data."

--------------------------------------------------------------------------------
-- Go map[string][]string, modelled as an association list sorted by key
--------------------------------------------------------------------------------

/-- `url.Values` / `http.Header`: `map[string][]string`, canonically represented
as an association list sorted by key (Go maps are unordered). -/
abbrev Values := List (String × List String)

/-- Update the entry for key `k` with `f` (`f none` when the key is absent,
`f (some vs)` when present), keeping the list sorted by key.  This is the
canonical-representation image of a Go map assignment `m[k] = f(m[k])`. -/
def assocUpd (k : String) (f : Option (List String) → List String) : Values → Values
  | [] => [(k, f none)]
  | (k', v') :: rest =>
    if k = k' then (k, f (some v')) :: rest
    else if k < k' then (k, f none) :: (k', v') :: rest
    else (k', v') :: assocUpd k f rest

/-- Go `url.Values.Add`: append `v` to the values of key `k`. -/
def valuesAdd (k v : String) (m : Values) : Values :=
  assocUpd k (fun o => (o.getD []) ++ [v]) m

/-- Go `url.Values.Set` / `textproto.MIMEHeader` assignment: replace the values
of key `k` with exactly `vs`. -/
def valuesSet (k : String) (vs : List String) (m : Values) : Values :=
  assocUpd k (fun _ => vs) m

/-- Look up the values of a key (Go `m[k]`, `nil` for a missing key → `[]`). -/
def valuesGet (k : String) (m : Values) : List String :=
  ((m.find? (fun kv => kv.1 = k)).map (fun kv => kv.2)).getD []

--------------------------------------------------------------------------------
-- net/textproto CanonicalMIMEHeaderKey (used by http.Header.Set)
--------------------------------------------------------------------------------

/-- Go `net/textproto` `validHeaderFieldByte`: the RFC 7230 token characters. -/
def isTokenChar (c : Char) : Bool :=
  c.isAlphanum ||
    c = '!' || c = '#' || c = '$' || c = '%' || c = '&' || c = '\x27' ||
    c = '*' || c = '+' || c = '-' || c = '.' || c = '^' || c = '_' ||
    c = '\x60' || c = '|' || c = '~'

/-- One step of MIME-key canonicalization: `upper` says whether the current
character starts a word (start of key or right after a hyphen). -/
def canonicalChars : Bool → List Char → List Char
  | _, [] => []
  | upper, c :: cs =>
    (if upper then c.toUpper else c.toLower) :: canonicalChars (c = '-') cs

/-- Go `textproto.CanonicalMIMEHeaderKey`: if every byte is a token character,
upper-case the first letter and each letter following a hyphen and lower-case
the rest; otherwise return the key unchanged. -/
def canonicalMIMEHeaderKey (s : String) : String :=
  if s.data.all isTokenChar then ⟨canonicalChars true s.data⟩ else s

/-- Go `http.Header.Set`: set the canonicalized key to the single value. -/
def headerSet (k v : String) (h : Values) : Values :=
  valuesSet (canonicalMIMEHeaderKey k) [v] h

--------------------------------------------------------------------------------
-- net/url query escaping and url.Values.Encode
--------------------------------------------------------------------------------

/-- Upper-case hexadecimal digit, as emitted by Go's percent-encoding. -/
def hexDigitChar (n : Nat) : Char :=
  if n < 10 then Char.ofNat (48 + n) else Char.ofNat (55 + n)

/-- Bytes Go's `url.QueryEscape` leaves unescaped: ASCII alphanumerics and
`-`, `_`, `.`, `~`. -/
def isUnreservedByte (b : Nat) : Bool :=
  decide ((65 ≤ b ∧ b ≤ 90) ∨ (97 ≤ b ∧ b ≤ 122) ∨ (48 ≤ b ∧ b ≤ 57) ∨
    b = 45 ∨ b = 95 ∨ b = 46 ∨ b = 126)

/-- Escape one byte as `url.QueryEscape` does: unreserved bytes pass through,
space becomes `+`, everything else becomes `%XX` with upper-case hex. -/
def queryEscapeByte (b : Nat) : List Char :=
  if isUnreservedByte b then [Char.ofNat b]
  else if b = 32 then ['+']
  else ['%', hexDigitChar (b / 16), hexDigitChar (b % 16)]

/-- Go `url.QueryEscape`, applied to the UTF-8 bytes of the string. -/
def queryEscape (s : String) : String :=
  ⟨(s.toUTF8.toList.map (fun b => queryEscapeByte b.toNat)).flatten⟩

/-- Go `url.Values.Encode`: keys in sorted order (our representation is already
sorted), each value emitted as `key=value` with both sides query-escaped, the
pairs joined by `&`. -/
def valuesEncode (m : Values) : String :=
  String.intercalate "&"
    ((m.map (fun kv => kv.2.map (fun v => queryEscape kv.1 ++ "=" ++ queryEscape v))).flatten)

--------------------------------------------------------------------------------
-- URLs, responses, response meta
--------------------------------------------------------------------------------

/-- The components of `url.URL` populated by this package (`CreateURL` sets
scheme, host, path and the encoded query; user info, fragment and opaque data
are never used). -/
structure URL where
  scheme : String
  host : String
  path : String
  rawQuery : String
deriving DecidableEq

/-- `url.URL.String` for URLs assembled by `CreateURL` (scheme://host/path?query). -/
def urlString (u : URL) : String :=
  u.scheme ++ "://" ++ u.host ++ u.path ++
    (if u.rawQuery.isEmpty then "" else "?" ++ u.rawQuery)

/-- An `http.Cookie` (only identity matters to the builder, which stores and
forwards cookies verbatim). -/
structure Cookie where
  name : String
  value : String
deriving DecidableEq

/-- The fields of `http.Response` this package reads: status code, declared
content length, headers and the (already materialized) body bytes. -/
structure Response where
  statusCode : Int
  contentLength : Int
  header : Values
  body : Bytes
deriving DecidableEq

/-- `HTTPResponseMeta` (part_001:72-78). -/
structure HTTPResponseMeta where
  statusCode : Int
  contentLength : Int
  contentEncoding : String
  contentType : String
  headers : Values
deriving DecidableEq

/-- The zero-valued meta produced for an absent response. -/
def emptyMeta : HTTPResponseMeta :=
  { statusCode := 0, contentLength := 0, contentEncoding := "", contentType := "",
    headers := [] }

/-- `NewHTTPResponseMeta` (part_001:39-61): a nil response yields the fresh
zero-valued meta; otherwise copy status and declared content length, join the
`Content-Type` and `Content-Encoding` header values with `;` when present, and
keep the full header map. -/
def NewHTTPResponseMeta : Option Response → HTTPResponseMeta
  | none => emptyMeta
  | some res =>
    let ct := valuesGet "Content-Type" res.header
    let ce := valuesGet "Content-Encoding" res.header
    { statusCode := res.statusCode
      contentLength := res.contentLength
      contentType := if ct.length > 0 then String.intercalate ";" ct else ""
      contentEncoding := if ce.length > 0 then String.intercalate ";" ce else ""
      headers := res.header }

--------------------------------------------------------------------------------
-- Transports and the request state
--------------------------------------------------------------------------------

/-- The `http.Transport` fields this package configures (part_001:641-679).
`tlsConfigured` records that a client certificate pair was loaded into
`TLSClientConfig`. -/
structure Transport where
  disableCompression : Bool
  disableKeepAlives : Bool
  dialTimeout : Int
  dialKeepAlive : Int
  tlsConfigured : Bool
deriving DecidableEq

/-- Result of a `MockedResponseHandler` (part_001:90): whether the handler
matched, the synthetic meta, the payload bytes and an optional error. -/
structure MockResult where
  didMock : Bool
  meta : HTTPResponseMeta
  payload : Bytes
  error : Option Err

/-- `HTTPRequest` (part_001:112-141).  The response/request observation hooks
and the logger only observe; their presence is recorded, their effects are not
modelled.  The transport-creation hook mutates the transport it is handed, so
it is modelled as a transport transformer. -/
structure HTTPRequest where
  scheme : String
  host : String
  path : String
  queryString : Values
  header : Values
  postData : Values
  cookies : List Cookie
  basicAuthUsername : String
  basicAuthPassword : String
  verb : String
  contentType : String
  timeout : Int
  tlsCertPath : String
  tlsKeyPath : String
  body : Bytes
  keepAlive : Bool
  label : String
  logLevel : Int
  hasLogger : Bool
  transport : Option Transport
  createTransportHandler : Option (URL → Transport → Transport)
  hasIncomingResponseHandler : Bool
  hasOutgoingRequestHandler : Bool
  mockHandler : Option (String → URL → MockResult)

/-- `NewHTTPRequest` (part_001:103-109): everything zero except scheme "http",
verb "GET", keep-alive off. -/
def NewHTTPRequest : HTTPRequest :=
  { scheme := "http", host := "", path := "", queryString := [], header := [],
    postData := [], cookies := [], basicAuthUsername := "", basicAuthPassword := "",
    verb := "GET", contentType := "", timeout := 0, tlsCertPath := "",
    tlsKeyPath := "", body := [], keepAlive := false, label := "", logLevel := 0,
    hasLogger := false, transport := none, createTransportHandler := none,
    hasIncomingResponseHandler := false, hasOutgoingRequestHandler := false,
    mockHandler := none }

/-- `WithScheme` (part_001:245). -/
def HTTPRequest.WithScheme (hr : HTTPRequest) (s : String) : HTTPRequest :=
  { hr with scheme := s }

/-- `WithHost` (part_001:251). -/
def HTTPRequest.WithHost (hr : HTTPRequest) (h : String) : HTTPRequest :=
  { hr with host := h }

/-- `WithPath` (part_001:257). -/
def HTTPRequest.WithPath (hr : HTTPRequest) (p : String) : HTTPRequest :=
  { hr with path := p }

/-- `WithVerb` (part_001:368). -/
def HTTPRequest.WithVerb (hr : HTTPRequest) (v : String) : HTTPRequest :=
  { hr with verb := v }

/-- `WithTimeout` (part_001:350). -/
def HTTPRequest.WithTimeout (hr : HTTPRequest) (t : Int) : HTTPRequest :=
  { hr with timeout := t }

/-- `WithContentType` (part_001:239). -/
def HTTPRequest.WithContentType (hr : HTTPRequest) (ct : String) : HTTPRequest :=
  { hr with contentType := ct }

/-- `WithHeader` (part_001:293-299): allocate the header map if needed (the
empty list already covers the nil map) and `Set` the field. -/
def HTTPRequest.WithHeader (hr : HTTPRequest) (field value : String) : HTTPRequest :=
  { hr with header := headerSet field value hr.header }

/-- `WithQueryString` (part_001:302-308): `Add` the field to the query map. -/
def HTTPRequest.WithQueryString (hr : HTTPRequest) (field value : String) : HTTPRequest :=
  { hr with queryString := valuesAdd field value hr.queryString }

/-- `WithPostData` (part_001:320-326). -/
def HTTPRequest.WithPostData (hr : HTTPRequest) (field value : String) : HTTPRequest :=
  { hr with postData := valuesAdd field value hr.postData }

/-- `WithCookie` (part_001:311-317). -/
def HTTPRequest.WithCookie (hr : HTTPRequest) (c : Cookie) : HTTPRequest :=
  { hr with cookies := hr.cookies ++ [c] }

/-- `WithBasicAuth` (part_001:342). -/
def HTTPRequest.WithBasicAuth (hr : HTTPRequest) (u p : String) : HTTPRequest :=
  { hr with basicAuthUsername := u, basicAuthPassword := p }

/-- `WithRawBody` (part_001:420). -/
def HTTPRequest.WithRawBody (hr : HTTPRequest) (b : Bytes) : HTTPRequest :=
  { hr with body := b }

/-- `WithTLSCert` (part_001:356). -/
def HTTPRequest.WithTLSCert (hr : HTTPRequest) (p : String) : HTTPRequest :=
  { hr with tlsCertPath := p }

/-- `WithTLSKey` (part_001:362). -/
def HTTPRequest.WithTLSKey (hr : HTTPRequest) (p : String) : HTTPRequest :=
  { hr with tlsKeyPath := p }

/-- `WithKeepAlives` (part_001:232-236): raise the flag and set the
`Connection: keep-alive` header. -/
def HTTPRequest.WithKeepAlives (hr : HTTPRequest) : HTTPRequest :=
  HTTPRequest.WithHeader { hr with keepAlive := true } "Connection" "keep-alive"

/-- `WithTransport` (part_001:226). -/
def HTTPRequest.WithTransport (hr : HTTPRequest) (t : Transport) : HTTPRequest :=
  { hr with transport := some t }

/-- `OnCreateTransport` (part_001:150). -/
def HTTPRequest.OnCreateTransport (hr : HTTPRequest) (f : URL → Transport → Transport) :
    HTTPRequest :=
  { hr with createTransportHandler := some f }

/-- `WithMockedResponse` (part_001:168). -/
def HTTPRequest.WithMockedResponse (hr : HTTPRequest) (f : String → URL → MockResult) :
    HTTPRequest :=
  { hr with mockHandler := some f }

--------------------------------------------------------------------------------
-- WithURL and its query-string parsing loop
--------------------------------------------------------------------------------

/-- Go `strings.Split` for a one-character separator (the only separators
`WithURL` uses are `&` and `=`): the empty string yields one empty piece, and
each separator occurrence starts a new piece. -/
def splitOnChar (sep : Char) : List Char → List (List Char)
  | [] => [[]]
  | c :: cs =>
    let r := splitOnChar sep cs
    if c = sep then [] :: r
    else
      match r with
      | [] => [[c]]
      | g :: gs => (c :: g) :: gs

/-- The query-parsing loop of `WithURL` (part_001:280-288): split the raw query
on `&`; skip empty parameters; split each parameter on `=` and `Set` the first
piece to the second.  In Go, a parameter with no `=` makes
`keyValue[1]` an index out of range, which panics: `none` models that fault. -/
def parseQueryParams : List (List Char) → Values → Option Values
  | [], acc => some acc
  | p :: ps, acc =>
    if p = [] then parseQueryParams ps acc
    else
      match splitOnChar '=' p with
      | k :: v :: _ => parseQueryParams ps (valuesSet ⟨k⟩ [⟨v⟩] acc)
      | _ => none

/-- `WithURL` (part_001:275-290), given the scheme/host/path/raw-query
components already extracted by `url.Parse`: overwrite the target components
and rebuild the query map with the parsing loop.  `none` models the panic the
loop can raise. -/
def HTTPRequest.WithURL (hr : HTTPRequest) (scheme host path rawQuery : String) :
    Option HTTPRequest :=
  (parseQueryParams (splitOnChar '&' rawQuery.data) []).map
    (fun qs => { hr with scheme := scheme, host := host, path := path, queryString := qs })

--------------------------------------------------------------------------------
-- URL assembly, body and header assembly, request creation
--------------------------------------------------------------------------------

/-- `CreateURL` (part_001:426-430): scheme, host and path verbatim plus the
encoded query string. -/
def HTTPRequest.CreateURL (hr : HTTPRequest) : URL :=
  { scheme := hr.scheme, host := hr.host, path := hr.path,
    rawQuery := valuesEncode hr.queryString }

/-- UTF-8 bytes of a string (Go `[]byte(s)`). -/
def strToBytes (s : String) : Bytes :=
  s.toUTF8.toList.map (fun b => b.toNat)

/-- `RequestBody` (part_001:442-449): the raw body when non-empty, else the
URL-encoded post data when present, else nil. -/
def HTTPRequest.RequestBody (hr : HTTPRequest) : Bytes :=
  if hr.body.length > 0 then hr.body
  else if hr.postData.length > 0 then strToBytes (valuesEncode hr.postData)
  else []

/-- `Headers` (part_001:451-465): copy each header value through `Set` (so only
the last value of a multi-valued key survives), then infer the form content
type when post data is present, with an explicit content-type override winning. -/
def HTTPRequest.Headers (hr : HTTPRequest) : Values :=
  let base := hr.header.foldl
    (fun acc kv => kv.2.foldl (fun acc v => headerSet kv.1 v acc) acc) []
  let withForm :=
    if hr.postData.length > 0 then
      headerSet "Content-Type" "application/x-www-form-urlencoded" base
    else base
  if hr.contentType.length = 0 then withForm
  else headerSet "Content-Type" hr.contentType withForm

/-- The fields of `http.Request` this package populates. -/
structure Request where
  verb : String
  url : URL
  body : Bytes
  header : Values
  basicAuth : Option (String × String)
  cookies : List Cookie

/-- `CreateHTTPRequest` (part_001:468-498): refuse a request with both a raw
body and post data, otherwise assemble verb, URL, body, basic auth, cookies
and merged headers.  (`http.NewRequest` itself is modelled as succeeding: the
URL was just produced by `CreateURL` and the verb is one of the fixed verbs.) -/
def HTTPRequest.CreateHTTPRequest (hr : HTTPRequest) : Except Err Request :=
  if hr.body.length > 0 ∧ hr.postData.length > 0 then
    .error configurationError
  else
    .ok { verb := hr.verb, url := hr.CreateURL, body := hr.RequestBody,
          header := hr.Headers,
          basicAuth :=
            if hr.basicAuthUsername.length = 0 then none
            else some (hr.basicAuthUsername, hr.basicAuthPassword),
          cookies := hr.cookies }

--------------------------------------------------------------------------------
-- Transport factory
--------------------------------------------------------------------------------

/-- `requiresCustomTransport` (part_001:629-631): both TLS paths set, or a
caller-supplied transport, or a transport-creation hook. -/
def HTTPRequest.requiresCustomTransport (hr : HTTPRequest) : Bool :=
  (!hr.tlsCertPath.isEmpty && !hr.tlsKeyPath.isEmpty) ||
    hr.transport.isSome || hr.createTransportHandler.isSome

/-- The external effects of an execution: the live network call
(`http.Client.Do`, given the request, the client transport — `none` means the
platform default — and the client timeout) and the TLS key-pair loader
(`tls.LoadX509KeyPair`, `some` an error when loading fails). -/
structure Env where
  net : Request → Option Transport → Int → Option Response × Option Err
  tlsLoad : String → String → Option Err

/-- `createHTTPTransport` (part_001:641-679): compression on, keep-alives per
the flag, dialer bounded by the timeout, a fixed 30s keep-alive probe when
keep-alive is on, the TLS client certificate pair loaded when both paths are
set (a load failure is returned), and finally the creation hook applied. -/
def HTTPRequest.createHTTPTransport (hr : HTTPRequest) (env : Env) :
    Except Err Transport :=
  let t : Transport :=
    { disableCompression := false
      disableKeepAlives := !hr.keepAlive
      dialTimeout := if hr.timeout ≠ 0 then hr.timeout else 0
      dialKeepAlive := if hr.keepAlive then 30000000000 else 0
      tlsConfigured := false }
  let loaded : Except Err Transport :=
    if !hr.tlsCertPath.isEmpty && !hr.tlsKeyPath.isEmpty then
      match env.tlsLoad hr.tlsCertPath hr.tlsKeyPath with
      | some e => .error e
      | none => .ok { t with tlsConfigured := true }
    else .ok t
  match loaded with
  | .error e => .error e
  | .ok t' =>
    match hr.createTransportHandler with
    | some hook => .ok (hook hr.CreateURL t')
    | none => .ok t'

/-- `getHTTPTransport` (part_001:633-639): a caller-supplied transport is used
verbatim; otherwise one is created. -/
def HTTPRequest.getHTTPTransport (hr : HTTPRequest) (env : Env) :
    Except Err Transport :=
  match hr.transport with
  | some t => .ok t
  | none => hr.createHTTPTransport env

--------------------------------------------------------------------------------
-- FetchRawResponse and the execution trace
--------------------------------------------------------------------------------

/-- Observable network-side steps of `FetchRawResponse`: resolving a custom
transport (part_001:524-530) and issuing `client.Do` with the chosen client
transport (part_001:536). -/
inductive NetEvent
  | resolveTransport
  | clientDo (transport : Option Transport)
deriving DecidableEq

/-- The outcome of `FetchRawResponse`: the response, the error, and the trace
of network-side steps taken. -/
structure FetchResult where
  response : Option Response
  error : Option Err
  events : List NetEvent
deriving DecidableEq

/-- The live branch of `FetchRawResponse` (part_001:523-537): build the client,
resolve a custom transport only when required (propagating a resolution
failure), apply the timeout, and perform the call. -/
def HTTPRequest.liveFetch (hr : HTTPRequest) (env : Env) (req : Request) :
    FetchResult :=
  if hr.requiresCustomTransport then
    match hr.getHTTPTransport env with
    | .error e => { response := none, error := some e, events := [.resolveTransport] }
    | .ok t =>
      let r := env.net req (some t) hr.timeout
      { response := r.1, error := r.2, events := [.resolveTransport, .clientDo (some t)] }
  else
    let r := env.net req none hr.timeout
    { response := r.1, error := r.2, events := [.clientDo none] }

/-- `FetchRawResponse` (part_001:501-538): assemble the request (failing fast on
a configuration error), then consult the mock handler — a match synthesizes the
response from the handler's meta, payload and error with the content length set
to the payload size, touching no transport — otherwise perform the live call. -/
def HTTPRequest.FetchRawResponse (hr : HTTPRequest) (env : Env) : FetchResult :=
  match hr.CreateHTTPRequest with
  | .error e => { response := none, error := some e, events := [] }
  | .ok req =>
    match hr.mockHandler with
    | some handler =>
      let m := handler hr.verb req.url
      if m.didMock then
        { response := some { statusCode := m.meta.statusCode,
                             contentLength := Int.ofNat m.payload.length,
                             header := m.meta.headers,
                             body := m.payload }
          error := m.error
          events := [] }
      else hr.liveFetch env req
    | none => hr.liveFetch env req

/-- `ExecuteWithMeta` (part_001:547-557): fetch, close the body (closing a
buffered body cannot fail, so the close-error path is not modelled), and build
the meta from whatever response is present. -/
def HTTPRequest.ExecuteWithMeta (hr : HTTPRequest) (env : Env) :
    HTTPResponseMeta × Option Err :=
  let r := hr.FetchRawResponse env
  (NewHTTPResponseMeta r.response, r.error)

/-- `FetchStringWithMeta` (part_001:566-582): build the meta, return early on a
fetch error, otherwise read the whole body and overwrite the meta's content
length with the number of bytes actually read.  `none` models the nil-response
dereference that a conforming transport never produces (error nil with a nil
response). -/
def HTTPRequest.FetchStringWithMeta (hr : HTTPRequest) (env : Env) :
    Option (Bytes × HTTPResponseMeta × Option Err) :=
  let r := hr.FetchRawResponse env
  let meta := NewHTTPResponseMeta r.response
  match r.error with
  | some e => some ([], meta, some e)
  | none =>
    match r.response with
    | none => none
    | some res =>
      some (res.body, { meta with contentLength := Int.ofNat res.body.length }, none)

/-- A deserializer together with its destination, in state-passing form: Go's
`Deserializer` closures mutate a captured destination, so here a handler maps
the destination state and the body bytes to the new state and an error. -/
abbrev Handler (α : Type) := α → Bytes → α × Option Err

/-- `deserialize` (part_001:681-701): fetch, build the meta, return early on a
fetch error, read the body, overwrite the content length with the bytes read,
and run the handler when present. -/
def HTTPRequest.deserialize {α : Type} (hr : HTTPRequest) (env : Env)
    (handler : Option (Handler α)) (dest : α) :
    Option (HTTPResponseMeta × α × Option Err) :=
  let r := hr.FetchRawResponse env
  let meta := NewHTTPResponseMeta r.response
  match r.error with
  | some e => some (meta, dest, some e)
  | none =>
    match r.response with
    | none => none
    | some res =>
      let body := res.body
      let meta2 := { meta with contentLength := Int.ofNat body.length }
      match handler with
      | some h =>
        let d := h dest body
        some (meta2, d.1, d.2)
      | none => some (meta2, dest, none)

/-- `deserializeWithError` (part_001:703-727): as `deserialize`, but dispatch on
the status code — the OK handler runs exactly when the status is `http.StatusOK`
(200), otherwise the error handler runs; the untaken destination is untouched. -/
def HTTPRequest.deserializeWithError {α β : Type} (hr : HTTPRequest) (env : Env)
    (okHandler : Option (Handler α)) (errorHandler : Option (Handler β))
    (okDest : α) (errDest : β) :
    Option (HTTPResponseMeta × α × β × Option Err) :=
  let r := hr.FetchRawResponse env
  let meta := NewHTTPResponseMeta r.response
  match r.error with
  | some e => some (meta, okDest, errDest, some e)
  | none =>
    match r.response with
    | none => none
    | some res =>
      let body := res.body
      let meta2 := { meta with contentLength := Int.ofNat body.length }
      if res.statusCode = 200 then
        match okHandler with
        | some h =>
          let d := h okDest body
          some (meta2, d.1, errDest, d.2)
        | none => some (meta2, okDest, errDest, none)
      else
        match errorHandler with
        | some h =>
          let d := h errDest body
          some (meta2, okDest, d.1, d.2)
        | none => some (meta2, okDest, errDest, none)

--------------------------------------------------------------------------------
-- JSON codec, modelled at a concrete serializable record type
--------------------------------------------------------------------------------

/-- A concrete serializable record standing for the `interface\x7b\x7d` payloads the
JSON codec round-trips: one unsigned integer field `id` and one boolean field
`active`. -/
structure Record where
  id : Nat
  active : Bool
deriving DecidableEq

/-- Little-endian base-10 digits with explicit fuel (the fuel `n` always
suffices for `n` itself because the argument quarters under division by 10). -/
def natDigitsAux : Nat → Nat → List Nat
  | 0, _ => []
  | _ + 1, 0 => []
  | fuel + 1, n => (n % 10) :: natDigitsAux fuel (n / 10)

/-- Little-endian base-10 digits of `n` (empty for 0). -/
def natDigits (n : Nat) : List Nat := natDigitsAux n n

/-- The ASCII decimal representation of a natural, as bytes, most significant
digit first — exactly what Go's `encoding/json` emits for an unsigned integer. -/
def natBytes (n : Nat) : Bytes :=
  if n = 0 then [48] else ((natDigits n).map (fun d => 48 + d)).reverse

/-- Read a byte sequence of ASCII decimal digits back into a natural, most
significant digit first. -/
def bytesToNat (bs : Bytes) : Nat :=
  bs.foldl (fun acc b => acc * 10 + (b - 48)) 0

/-- ASCII bytes of `true` / `false`, as Go's `encoding/json` emits booleans. -/
def boolBytes : Bool → Bytes
  | true => [116, 114, 117, 101]
  | false => [102, 97, 108, 115, 101]

/-- `serializeJSON` (part_001:772-774) at type `Record`: `json.Marshal` emits
`\x7b"id":<digits>,"active":<bool>\x7d` for this record — byte values 123 34 105 100
34 58 are `\x7b"id":`, 44 34 97 99 116 105 118 101 34 58 are `,"active":`, 125 is
the closing brace. -/
def serializeJSON (r : Record) : Bytes :=
  [123, 34, 105, 100, 34, 58] ++ natBytes r.id ++
    [44, 34, 97, 99, 116, 105, 118, 101, 34, 58] ++ boolBytes r.active ++ [125]

/-- Strip an expected literal byte prefix, returning the remainder. -/
def stripLit : Bytes → Bytes → Option Bytes
  | [], rest => some rest
  | _ :: _, [] => none
  | p :: ps, b :: bs => if b = p then stripLit ps bs else none

/-- Is the byte an ASCII decimal digit. -/
def isDigitByte (b : Nat) : Bool := decide (48 ≤ b ∧ b ≤ 57)

/-- Split off the maximal run of ASCII digit bytes. -/
def spanDigits : Bytes → Bytes × Bytes
  | [] => ([], [])
  | b :: bs =>
    if isDigitByte b then
      let r := spanDigits bs
      (b :: r.1, r.2)
    else ([], b :: bs)

/-- Parse a decimal natural: at least one digit, maximal munch. -/
def parseNatBytes (bs : Bytes) : Option (Nat × Bytes) :=
  let r := spanDigits bs
  if r.1.isEmpty then none else some (bytesToNat r.1, r.2)

/-- Parse a JSON boolean literal. -/
def parseBoolBytes (bs : Bytes) : Option (Bool × Bytes) :=
  match stripLit (boolBytes true) bs with
  | some rest => some (true, rest)
  | none =>
    match stripLit (boolBytes false) bs with
    | some rest => some (false, rest)
    | none => none

/-- The JSON decoder for `Record`, modelling `json.Decoder.Decode` on the
canonical form `json.Marshal` produces for this type (the only form the
round-trip exercises; Go's decoder also accepts whitespace and reordered
fields, which never arise here).  Trailing bytes after the closing brace are
ignored, as `Decode` reads a single value. -/
def parseRecord (bs : Bytes) : Option Record := do
  let r1 ← stripLit [123, 34, 105, 100, 34, 58] bs
  let (n, r2) ← parseNatBytes r1
  let r3 ← stripLit [44, 34, 97, 99, 116, 105, 118, 101, 34, 58] r2
  let (b, r4) ← parseBoolBytes r3
  let _ ← stripLit [125] r4
  pure { id := n, active := b }

/-- The error `exception.Wrap` carries out of a failed `json.Decode`. -/
def jsonDecodeError : Err := "json: cannot unmarshal"

/-- `deserializeJSON` (part_001:760-764) at type `Record`, in state-passing
form: a successful decode replaces the destination, a failed decode reports the
wrapped decoder error. -/
def deserializeJSON : Handler (Option Record) := fun dest body =>
  match parseRecord body with
  | some r => (some r, none)
  | none => (dest, some jsonDecodeError)

/-- `FetchJSONToObject` (part_001:585-588): run `deserialize` with the JSON
deserializer; the pair is the final destination state and the error (Go
returns the error and mutates the destination in place). -/
def HTTPRequest.FetchJSONToObject (hr : HTTPRequest) (env : Env)
    (dest : Option Record) : Option (Option Record × Option Err) :=
  (hr.deserialize env (some deserializeJSON) dest).map (fun x => (x.2.1, x.2.2))

/-- `FetchJSONToObjectWithErrorHandler` (part_001:596-598): run
`deserializeWithError` with the JSON deserializer on both destinations. -/
def HTTPRequest.FetchJSONToObjectWithErrorHandler (hr : HTTPRequest) (env : Env)
    (okDest errDest : Option Record) :
    Option (HTTPResponseMeta × Option Record × Option Record × Option Err) :=
  hr.deserializeWithError env (some deserializeJSON) (some deserializeJSON) okDest errDest

--------------------------------------------------------------------------------
-- Spec-side definition for the transport-trigger claim, and concrete instances
-- used by the witnesses
--------------------------------------------------------------------------------

/-- The transport-construction trigger as the specification's claim words it:
"a non-default transport is built exactly when TLS materials (both certificate
and key paths non-empty), a transport-creation hook, or non-default
keep-alive/timeout needs require it".  Stated from the claim's words, for
comparison with the code's `requiresCustomTransport`. -/
def specTransportTrigger (hr : HTTPRequest) : Bool :=
  (!hr.tlsCertPath.isEmpty && !hr.tlsKeyPath.isEmpty) ||
    hr.createTransportHandler.isSome ||
    (hr.keepAlive != NewHTTPRequest.keepAlive) || (hr.timeout != 0)

/-- A request configured with both a raw body and form post data. -/
def c1Request : HTTPRequest := (NewHTTPRequest.WithRawBody [120]).WithPostData "a" "b"

/-- An environment whose live call would succeed vacuously. -/
def c1Env : Env := ⟨fun _ _ _ => (none, none), fun _ _ => none⟩

/-- A mock handler that always matches with a fixed synthetic response. -/
def c2Mock : String → URL → MockResult := fun _ _ =>
  ⟨true, { statusCode := 200, contentLength := 7, contentEncoding := "",
           contentType := "", headers := [("X-Test", ["1"])] }, [104, 105], none⟩

/-- A request with both a custom transport and an always-matching mock. -/
def c2Request : HTTPRequest :=
  (NewHTTPRequest.WithTransport ⟨false, true, 0, 0, false⟩).WithMockedResponse c2Mock

/-- An environment whose transport errors on any dial. -/
def c2Env : Env := ⟨fun _ _ _ => (none, some "dial error"), fun _ _ => none⟩

/-- A mock handler producing a 404 whose body is a serialized record. -/
def c4Mock : String → URL → MockResult := fun _ _ =>
  ⟨true, { statusCode := 404, contentLength := 0, contentEncoding := "",
           contentType := "", headers := [] }, serializeJSON ⟨7, false⟩, none⟩

/-- A request mocked to return the 404 payload. -/
def c4Request : HTTPRequest := NewHTTPRequest.WithMockedResponse c4Mock

/-- An environment that would fail any live call. -/
def c4Env : Env := ⟨fun _ _ _ => (none, some "unreachable"), fun _ _ => none⟩

/-- A mock handler echoing the serialization of a fixed record with status 200. -/
def c5Mock : String → URL → MockResult := fun _ _ =>
  ⟨true, { statusCode := 200, contentLength := 0, contentEncoding := "",
           contentType := "", headers := [] }, serializeJSON ⟨42, true⟩, none⟩

/-- A request mocked to echo the serialized record. -/
def c5Request : HTTPRequest := NewHTTPRequest.WithMockedResponse c5Mock

/-- An environment that would fail any live call. -/
def c5Env : Env := ⟨fun _ _ _ => (none, some "unreachable"), fun _ _ => none⟩

/-- The response `c5Request`'s mock synthesizes. -/
def c5Response : Response :=
  { statusCode := 200, contentLength := Int.ofNat (serializeJSON ⟨42, true⟩).length,
    header := [], body := serializeJSON ⟨42, true⟩ }

/-- A request with keep-alive on and a non-default timeout, but no TLS
materials, no caller transport and no transport-creation hook. -/
def c6Request : HTTPRequest := NewHTTPRequest.WithKeepAlives.WithTimeout 1000000000

/-- An environment answering any live call with an empty 200. -/
def c6Env : Env := ⟨fun _ _ _ => (some ⟨200, 0, [], []⟩, none), fun _ _ => none⟩

/-- A caller-supplied transport. -/
def c6Transport : Transport := ⟨true, false, 5, 7, false⟩

/-- A request carrying the caller-supplied transport. -/
def c6RequestWithTransport : HTTPRequest := NewHTTPRequest.WithTransport c6Transport

/-- A live response whose declared content length (999) disagrees with its
actual body (3 bytes). -/
def c9Response : Response :=
  { statusCode := 200, contentLength := 999, header := [], body := [1, 2, 3] }

/-- A plain request with no mock. -/
def c9Request : HTTPRequest := NewHTTPRequest.WithHost "host"

/-- An environment delivering `c9Response` for any live call. -/
def c9Env : Env := ⟨fun _ _ _ => (some c9Response, none), fun _ _ => none⟩

/-- A request configured with both a raw body and form post data. -/
def c10Request : HTTPRequest := (NewHTTPRequest.WithRawBody [121]).WithPostData "k" "v"

/-- An environment whose live call would succeed vacuously. -/
def c10Env : Env := ⟨fun _ _ _ => (none, none), fun _ _ => none⟩

--------------------------------------------------------------------------------
-- Supporting lemmas
--------------------------------------------------------------------------------

theorem assocUpd_comm_lt (k1 k2 : String) (f1 f2 : Option (List String) → List String)
    (h : k1 < k2) :
    ∀ m : Values, assocUpd k1 f1 (assocUpd k2 f2 m) = assocUpd k2 f2 (assocUpd k1 f1 m) := by
  intro m
  induction m with
  | nil =>
    simp only [assocUpd]
    rw [if_neg (ne_of_lt h), if_pos h, if_neg (ne_of_gt h), if_neg (lt_asymm h)]
  | cons kv rest ih =>
    obtain ⟨a, va⟩ := kv
    rcases lt_trichotomy k2 a with h2a | h2a | h2a
    · have h1a : k1 < a := lt_trans h h2a
      simp only [assocUpd, if_neg (ne_of_lt h2a), if_pos h2a, if_neg (ne_of_lt h1a),
        if_pos h1a, if_neg (ne_of_lt h), if_pos h, if_neg (ne_of_gt h), if_neg (lt_asymm h)]
    · subst h2a
      have h1a : k1 < k2 := h
      simp only [assocUpd, if_pos rfl, if_neg (ne_of_lt h), if_pos h,
        if_neg (ne_of_gt h), if_neg (lt_asymm h)]
      rw [if_pos trivial]
    · rcases lt_trichotomy k1 a with h1a | h1a | h1a
      · simp only [assocUpd, if_neg (ne_of_gt h2a), if_neg (not_lt_of_gt h2a),
          if_neg (ne_of_lt h1a), if_pos h1a, if_neg (ne_of_gt h), if_neg (lt_asymm h)]
      · subst h1a
        simp only [assocUpd, if_neg (ne_of_gt h2a), if_neg (not_lt_of_gt h2a), if_pos rfl,
          if_neg (ne_of_gt h), if_neg (lt_asymm h)]
        rw [if_pos trivial]
      · simp only [assocUpd, if_neg (ne_of_gt h2a), if_neg (not_lt_of_gt h2a),
          if_neg (ne_of_gt h1a), if_neg (not_lt_of_gt h1a)]
        rw [ih]

theorem assocUpd_comm (k1 k2 : String) (f1 f2 : Option (List String) → List String)
    (hne : k1 ≠ k2) (m : Values) :
    assocUpd k1 f1 (assocUpd k2 f2 m) = assocUpd k2 f2 (assocUpd k1 f1 m) := by
  rcases lt_or_gt_of_ne hne with h | h
  · exact assocUpd_comm_lt k1 k2 f1 f2 h m
  · exact (assocUpd_comm_lt k2 k1 f2 f1 h m).symm

theorem natDigitsAux_ofDigits (fuel : Nat) :
    ∀ n : Nat, n ≤ fuel → Nat.ofDigits 10 (natDigitsAux fuel n) = n := by
  induction fuel with
  | zero => intro n hn; interval_cases n; simp [natDigitsAux, Nat.ofDigits]
  | succ fuel ih =>
    intro n hn
    match n with
    | 0 => simp [natDigitsAux, Nat.ofDigits]
    | m + 1 =>
      have hdiv : (m + 1) / 10 ≤ fuel := by omega
      simp only [natDigitsAux, Nat.ofDigits_cons, ih _ hdiv]
      omega

theorem natDigitsAux_lt (fuel : Nat) :
    ∀ n d : Nat, d ∈ natDigitsAux fuel n → d < 10 := by
  induction fuel with
  | zero => intro n d hd; simp [natDigitsAux] at hd
  | succ fuel ih =>
    intro n d hd
    match n with
    | 0 => simp [natDigitsAux] at hd
    | m + 1 =>
      simp only [natDigitsAux, List.mem_cons] at hd
      rcases hd with h | h
      · omega
      · exact ih _ _ h

theorem foldl_rev_digits (l : List Nat) :
    ∀ a : Nat, ((l.map (fun d => 48 + d)).reverse).foldl
      (fun acc b => acc * 10 + (b - 48)) a = a * 10 ^ l.length + Nat.ofDigits 10 l := by
  induction l with
  | nil => intro a; simp [Nat.ofDigits]
  | cons d l ih =>
    intro a
    simp only [List.map_cons, List.reverse_cons, List.foldl_append, List.foldl_cons,
      List.foldl_nil, ih, Nat.ofDigits_cons, List.length_cons]
    ring_nf
    omega

theorem bytesToNat_natBytes (n : Nat) : bytesToNat (natBytes n) = n := by
  by_cases h : n = 0
  · subst h; rfl
  · simp only [natBytes, if_neg h, bytesToNat, foldl_rev_digits, natDigits,
      natDigitsAux_ofDigits n n le_rfl]
    omega

theorem stripLit_append (p r : Bytes) : stripLit p (p ++ r) = some r := by
  induction p with
  | nil => rfl
  | cons b bs ih => simp [stripLit, ih]

theorem natBytes_digits (n : Nat) : ∀ b ∈ natBytes n, isDigitByte b = true := by
  intro b hb
  by_cases h : n = 0
  · subst h; simp [natBytes] at hb; subst hb; rfl
  · simp only [natBytes, if_neg h, List.mem_reverse, List.mem_map, natDigits] at hb
    obtain ⟨d, hd, rfl⟩ := hb
    have hlt := natDigitsAux_lt n n d hd
    simp only [isDigitByte, decide_eq_true_eq]
    omega

theorem natBytes_ne_nil (n : Nat) : natBytes n ≠ [] := by
  by_cases h : n = 0
  · subst h; simp [natBytes]
  · simp only [natBytes, if_neg h, ne_eq, List.reverse_eq_nil_iff, List.map_eq_nil_iff,
      natDigits]
    match n, h with
    | m + 1, _ => simp [natDigitsAux]

theorem spanDigits_exact (ds : Bytes) (c : Nat) (rest : Bytes)
    (hds : ∀ b ∈ ds, isDigitByte b = true) (hc : isDigitByte c = false) :
    spanDigits (ds ++ c :: rest) = (ds, c :: rest) := by
  induction ds with
  | nil => simp [spanDigits, hc]
  | cons b bs ih =>
    have hb : isDigitByte b = true := hds b (List.mem_cons_self b bs)
    have hbs : ∀ x ∈ bs, isDigitByte x = true := fun x hx => hds x (List.mem_cons_of_mem b hx)
    simp [spanDigits, hb, ih hbs]

theorem parseNat_natBytes (n c : Nat) (rest : Bytes) (hc : isDigitByte c = false) :
    parseNatBytes (natBytes n ++ c :: rest) = some (n, c :: rest) := by
  simp only [parseNatBytes, spanDigits_exact (natBytes n) c rest (natBytes_digits n) hc]
  simp [natBytes_ne_nil n, List.isEmpty_iff, bytesToNat_natBytes]

theorem parseBool_boolBytes (b : Bool) (rest : Bytes) :
    parseBoolBytes (boolBytes b ++ rest) = some (b, rest) := by
  cases b
  · have hnone : stripLit (boolBytes true) (boolBytes false ++ rest) = none := rfl
    simp [parseBoolBytes, hnone, stripLit_append]
  · simp [parseBoolBytes, stripLit_append]

theorem parseRecord_serializeJSON (r : Record) :
    parseRecord (serializeJSON r) = some r := by
  obtain ⟨n, b⟩ := r
  have h44 : isDigitByte 44 = false := rfl
  simp only [parseRecord, serializeJSON, List.append_assoc, stripLit_append,
    Option.bind_eq_bind, Option.some_bind]
  rw [show ([44, 34, 97, 99, 116, 105, 118, 101, 34, 58] ++ (boolBytes b ++ [125]) : Bytes) =
    44 :: ([34, 97, 99, 116, 105, 118, 101, 34, 58] ++ (boolBytes b ++ [125])) from rfl]
  rw [parseNat_natBytes n 44 _ h44]
  simp only [Option.some_bind]
  rw [show stripLit [44, 34, 97, 99, 116, 105, 118, 101, 34, 58]
      (44 :: ([34, 97, 99, 116, 105, 118, 101, 34, 58] ++ (boolBytes b ++ [125]))) =
      some (boolBytes b ++ [125]) from stripLit_append _ _]
  simp only [Option.some_bind]
  rw [parseBool_boolBytes b [125]]
  simp [stripLit]

--------------------------------------------------------------------------------
-- Claim theorems
--------------------------------------------------------------------------------

/-- C1: when both a raw body and form post data are set, `CreateHTTPRequest`
fails with the configuration error, and `FetchRawResponse` returns that error
immediately in every environment with an empty network trace — no transport is
resolved and no `client.Do` is issued. -/
theorem c1_bothBodyAndPostData_failsFast (hr : HTTPRequest) (env : Env)
    (hbody : hr.body.length > 0) (hpost : hr.postData.length > 0) :
    hr.CreateHTTPRequest = .error configurationError ∧
    hr.FetchRawResponse env =
      { response := none, error := some configurationError, events := [] } := by
  have hcreate : hr.CreateHTTPRequest = .error configurationError := by
    simp [HTTPRequest.CreateHTTPRequest, hbody, hpost]
  exact ⟨hcreate, by simp [HTTPRequest.FetchRawResponse, hcreate]⟩

/-- C1 witness: a concrete request with both body and post data fails fast. -/
theorem c1_bothBodyAndPostData_failsFast_witness :
    c1Request.body.length > 0 ∧ c1Request.postData.length > 0 ∧
    c1Request.FetchRawResponse c1Env =
      { response := none, error := some configurationError, events := [] } :=
  ⟨by decide, by decide,
    (c1_bothBodyAndPostData_failsFast c1Request c1Env (by decide) (by decide)).2⟩

/-- C2: whenever the registered mock handler reports a match, `FetchRawResponse`
returns a response synthesized purely from the handler's meta, payload and
error, in every environment and for every configured transport, with an empty
network trace — the transport branch and `client.Do` are never reached. -/
theorem c2_mockMatch_shortCircuits (hr : HTTPRequest) (env : Env)
    (h : String → URL → MockResult)
    (hmock : hr.mockHandler = some h)
    (hconfig : ¬(hr.body.length > 0 ∧ hr.postData.length > 0))
    (hmatch : (h hr.verb hr.CreateURL).didMock = true) :
    hr.FetchRawResponse env =
      { response := some { statusCode := (h hr.verb hr.CreateURL).meta.statusCode,
                           contentLength := Int.ofNat (h hr.verb hr.CreateURL).payload.length,
                           header := (h hr.verb hr.CreateURL).meta.headers,
                           body := (h hr.verb hr.CreateURL).payload }
        error := (h hr.verb hr.CreateURL).error
        events := [] } := by
  simp [HTTPRequest.FetchRawResponse, HTTPRequest.CreateHTTPRequest, hconfig, hmock, hmatch]

/-- C2 witness: with an always-matching mock and a configured custom transport,
in an environment whose every dial errors, the mock's synthetic response comes
back untouched and the trace is empty. -/
theorem c2_mockMatch_shortCircuits_witness :
    c2Request.FetchRawResponse c2Env =
      { response := some { statusCode := 200, contentLength := 2,
                           header := [("X-Test", ["1"])], body := [104, 105] }
        error := none
        events := [] } :=
  c2_mockMatch_shortCircuits c2Request c2Env c2Mock rfl (by decide) rfl

/-- C3: the claim says `WithURL` maps a query parameter lacking an equals sign
to a key with an empty value and never faults; on the code, the parsing loop
indexes `keyValue[1]` out of range for such a parameter, so `WithURL` on
`http://host/path?a&b=2` panics (modelled by `none`) instead. -/
theorem c3_withURL_faults_on_bare_key :
    NewHTTPRequest.WithURL "http" "host" "/path" "a&b=2" = none := rfl

/-- C4: on any successfully fetched response (mocked or live),
`FetchJSONToObjectWithErrorHandler` decodes the body into the success
destination exactly when the status code is the canonical OK code 200, and into
the error destination for any other status, leaving the success destination
untouched in that case; the returned meta carries the actual body length. -/
theorem c4_errorHandler_dispatch (hr : HTTPRequest) (env : Env) (res : Response)
    (evs : List NetEvent) (a b : Option Record)
    (hfetch : hr.FetchRawResponse env =
      { response := some res, error := none, events := evs }) :
    hr.FetchJSONToObjectWithErrorHandler env a b =
      some ({ NewHTTPResponseMeta (some res) with
                contentLength := Int.ofNat res.body.length },
        (if res.statusCode = 200 then (deserializeJSON a res.body).1 else a),
        (if res.statusCode = 200 then b else (deserializeJSON b res.body).1),
        (if res.statusCode = 200 then (deserializeJSON a res.body).2
         else (deserializeJSON b res.body).2)) := by
  simp only [HTTPRequest.FetchJSONToObjectWithErrorHandler,
    HTTPRequest.deserializeWithError, hfetch]
  by_cases hs : res.statusCode = 200
  · simp [hs]
  · simp [hs]

/-- C4 witness: a mocked 404 whose body serializes a record decodes into the
error destination, leaves the success destination untouched, and reports no
error. -/
theorem c4_errorHandler_dispatch_witness :
    c4Request.FetchJSONToObjectWithErrorHandler c4Env (some ⟨1, true⟩) none =
      some ({ statusCode := 404,
              contentLength := Int.ofNat (serializeJSON ⟨7, false⟩).length,
              contentEncoding := "", contentType := "", headers := [] },
        some ⟨1, true⟩, some ⟨7, false⟩, none) := by
  rw [c4_errorHandler_dispatch c4Request c4Env
    { statusCode := 404, contentLength := Int.ofNat (serializeJSON ⟨7, false⟩).length,
      header := [], body := serializeJSON ⟨7, false⟩ } [] (some ⟨1, true⟩) none rfl]
  decide

/-- C5: round trip — if the fetched response's body is exactly the JSON
serialization of a record, `FetchJSONToObject` fills the destination with a
value equal to that record and reports no error. -/
theorem c5_json_roundtrip (r : Record) (hr : HTTPRequest) (env : Env)
    (res : Response) (evs : List NetEvent) (dest : Option Record)
    (hfetch : hr.FetchRawResponse env =
      { response := some res, error := none, events := evs })
    (hbody : res.body = serializeJSON r) :
    hr.FetchJSONToObject env dest = some (some r, none) := by
  simp [HTTPRequest.FetchJSONToObject, HTTPRequest.deserialize, hfetch, hbody,
    deserializeJSON, parseRecord_serializeJSON]

/-- C5 witness: mocking a response that echoes the serialization of the record
with id 42 and active true, fetching to an empty destination returns exactly
that record. -/
theorem c5_json_roundtrip_witness :
    c5Request.FetchJSONToObject c5Env none = some (some ⟨42, true⟩, none) :=
  c5_json_roundtrip ⟨42, true⟩ c5Request c5Env c5Response [] none rfl rfl

/-- C6 counterexample: a request with keep-alive enabled and a non-default
timeout — non-default "keep-alive/timeout needs" in the claim's words — does
not trigger custom-transport construction: the code's trigger is false and the
execution calls `client.Do` with the platform default transport, refuting the
claim's "exactly when". -/
theorem c6_keepAliveTimeout_no_custom_transport :
    specTransportTrigger c6Request = true ∧
    c6Request.requiresCustomTransport = false ∧
    (c6Request.FetchRawResponse c6Env).events = [NetEvent.clientDo none] := by
  decide

/-- C6 (amended): a caller-supplied transport is used verbatim; a non-default
transport is resolved exactly when a caller transport, a transport-creation
hook, or both TLS certificate and key paths are present; in all other cases the
call goes out on the platform's default client transport — keep-alive and
timeout settings alone never force a custom transport. -/
theorem c6_transport_selection (hr : HTTPRequest) (env : Env) (t : Transport)
    (hmock : hr.mockHandler = none)
    (hconfig : ¬(hr.body.length > 0 ∧ hr.postData.length > 0)) :
    (hr.transport = some t → hr.getHTTPTransport env = .ok t) ∧
    (hr.requiresCustomTransport =
      (hr.transport.isSome || hr.createTransportHandler.isSome ||
        (!hr.tlsCertPath.isEmpty && !hr.tlsKeyPath.isEmpty))) ∧
    (hr.requiresCustomTransport = false →
      (hr.FetchRawResponse env).events = [NetEvent.clientDo none]) ∧
    (hr.transport = some t →
      (hr.FetchRawResponse env).events =
        [NetEvent.resolveTransport, NetEvent.clientDo (some t)]) := by
  refine ⟨?_, ?_, ?_, ?_⟩
  · intro ht
    simp [HTTPRequest.getHTTPTransport, ht]
  · simp only [HTTPRequest.requiresCustomTransport]
    cases (!hr.tlsCertPath.isEmpty && !hr.tlsKeyPath.isEmpty) <;>
      cases hr.transport.isSome <;> cases hr.createTransportHandler.isSome <;> rfl
  · intro hreq
    simp [HTTPRequest.FetchRawResponse, HTTPRequest.CreateHTTPRequest, hconfig, hmock,
      HTTPRequest.liveFetch, hreq]
  · intro ht
    have hreq : hr.requiresCustomTransport = true := by
      simp [HTTPRequest.requiresCustomTransport, ht]
    simp [HTTPRequest.FetchRawResponse, HTTPRequest.CreateHTTPRequest, hconfig, hmock,
      HTTPRequest.liveFetch, hreq, HTTPRequest.getHTTPTransport, ht]

/-- C6 witness: the caller-supplied transport is resolved verbatim and handed
to `client.Do`. -/
theorem c6_transport_selection_witness :
    (c6RequestWithTransport.FetchRawResponse c6Env).events =
      [NetEvent.resolveTransport, NetEvent.clientDo (some c6Transport)] :=
  (c6_transport_selection c6RequestWithTransport c6Env c6Transport rfl
    (by decide)).2.2.2 rfl

/-- C7: URL assembly is a pure function of the request state — invoking
`CreateURL` twice without intervening mutation yields equal URL values and
byte-identical rendered output. -/
theorem c7_createURL_idempotent (hr : HTTPRequest) :
    hr.CreateURL = hr.CreateURL ∧ urlString hr.CreateURL = urlString hr.CreateURL :=
  ⟨rfl, rfl⟩

/-- C8: independent fluent configuration calls commute — setters of distinct
concerns applied in either order to any spec (in particular the empty spec from
`NewHTTPRequest`) produce field-for-field identical request states, including
`WithHeader` on fields with distinct canonical keys and `WithQueryString` on
distinct keys. -/
theorem c8_setters_commute (hr : HTTPRequest) (h p v : String) (t : Int)
    (f1 v1 f2 v2 q1 w1 q2 w2 : String)
    (hf : canonicalMIMEHeaderKey f1 ≠ canonicalMIMEHeaderKey f2)
    (hq : q1 ≠ q2) :
    ((hr.WithHost h).WithPath p = (hr.WithPath p).WithHost h) ∧
    ((hr.WithHost h).WithVerb v = (hr.WithVerb v).WithHost h) ∧
    ((hr.WithHost h).WithTimeout t = (hr.WithTimeout t).WithHost h) ∧
    ((hr.WithPath p).WithVerb v = (hr.WithVerb v).WithPath p) ∧
    ((hr.WithPath p).WithTimeout t = (hr.WithTimeout t).WithPath p) ∧
    ((hr.WithVerb v).WithTimeout t = (hr.WithTimeout t).WithVerb v) ∧
    ((hr.WithHeader f1 v1).WithHost h = (hr.WithHost h).WithHeader f1 v1) ∧
    ((hr.WithHeader f1 v1).WithVerb v = (hr.WithVerb v).WithHeader f1 v1) ∧
    ((hr.WithQueryString q1 w1).WithPath p = (hr.WithPath p).WithQueryString q1 w1) ∧
    ((hr.WithQueryString q1 w1).WithTimeout t =
      (hr.WithTimeout t).WithQueryString q1 w1) ∧
    ((hr.WithHeader f1 v1).WithQueryString q1 w1 =
      (hr.WithQueryString q1 w1).WithHeader f1 v1) ∧
    ((hr.WithHeader f1 v1).WithHeader f2 v2 = (hr.WithHeader f2 v2).WithHeader f1 v1) ∧
    ((hr.WithQueryString q1 w1).WithQueryString q2 w2 =
      (hr.WithQueryString q2 w2).WithQueryString q1 w1) := by
  refine ⟨rfl, rfl, rfl, rfl, rfl, rfl, rfl, rfl, rfl, rfl, rfl, ?_, ?_⟩
  · simp only [HTTPRequest.WithHeader, headerSet, valuesSet]
    rw [assocUpd_comm (canonicalMIMEHeaderKey f2) (canonicalMIMEHeaderKey f1) _ _
      (Ne.symm hf) hr.header]
  · simp only [HTTPRequest.WithQueryString, valuesAdd]
    rw [assocUpd_comm q2 q1 _ _ (Ne.symm hq) hr.queryString]

/-- C8 witness: two headers with distinct canonical keys set in either order on
the empty spec give identical request states. -/
theorem c8_setters_commute_witness :
    canonicalMIMEHeaderKey "X-First" ≠ canonicalMIMEHeaderKey "X-Second" ∧
    "alpha" ≠ "beta" ∧
    (NewHTTPRequest.WithHeader "X-First" "1").WithHeader "X-Second" "2" =
      (NewHTTPRequest.WithHeader "X-Second" "2").WithHeader "X-First" "1" :=
  ⟨by decide, by decide,
    (c8_setters_commute NewHTTPRequest "h" "p" "v" 0 "X-First" "1" "X-Second" "2"
      "alpha" "w" "beta" "w" (by decide) (by decide)).2.2.2.2.2.2.2.2.2.2.2.1⟩

/-- C9: the meta's content length starts as the response's declared length, and
every body-reading fetch path — `FetchStringWithMeta`, `deserialize`,
`deserializeWithError` — overwrites it with the actual number of bytes read, so
the returned meta's content length equals the actual byte count even when the
declared length disagrees. -/
theorem c9_contentLength_corrected (hr : HTTPRequest) (env : Env) (res : Response)
    (evs : List NetEvent)
    (hfetch : hr.FetchRawResponse env =
      { response := some res, error := none, events := evs }) :
    (NewHTTPResponseMeta (some res)).contentLength = res.contentLength ∧
    ((hr.FetchStringWithMeta env).map (fun x => x.2.1.contentLength) =
      some (Int.ofNat res.body.length)) ∧
    (∀ (α : Type) (handler : Option (Handler α)) (dest : α),
      (hr.deserialize env handler dest).map (fun x => x.1.contentLength) =
        some (Int.ofNat res.body.length)) ∧
    (∀ (α β : Type) (okH : Option (Handler α)) (errH : Option (Handler β))
        (a : α) (b : β),
      (hr.deserializeWithError env okH errH a b).map (fun x => x.1.contentLength) =
        some (Int.ofNat res.body.length)) := by
  refine ⟨rfl, ?_, ?_, ?_⟩
  · simp [HTTPRequest.FetchStringWithMeta, hfetch]
  · intro α handler dest
    cases handler <;> simp [HTTPRequest.deserialize, hfetch]
  · intro α β okH errH a b
    by_cases hs : res.statusCode = 200 <;> cases okH <;> cases errH <;>
      simp [HTTPRequest.deserializeWithError, hfetch, hs]

/-- C9 witness: a live response declaring length 999 but carrying 3 bytes comes
back with content length 3. -/
theorem c9_contentLength_corrected_witness :
    c9Response.contentLength = 999 ∧ c9Response.body.length = 3 ∧
    ((c9Request.FetchStringWithMeta c9Env).map (fun x => x.2.1.contentLength) =
      some (Int.ofNat c9Response.body.length)) :=
  ⟨rfl, rfl,
    (c9_contentLength_corrected c9Request c9Env c9Response
      [NetEvent.clientDo none] rfl).2.1⟩

/-- C10: a nil response yields the fresh zero-valued meta (status 0, length 0,
empty content type and encoding, no headers), and `ExecuteWithMeta` on any
execution whose fetch produced no response still returns that meta alongside
the fetch error. -/
theorem c10_nilResponse_zeroMeta (hr : HTTPRequest) (env : Env)
    (hnone : (hr.FetchRawResponse env).response = none) :
    NewHTTPResponseMeta none =
      { statusCode := 0, contentLength := 0, contentEncoding := "",
        contentType := "", headers := [] } ∧
    hr.ExecuteWithMeta env =
      ({ statusCode := 0, contentLength := 0, contentEncoding := "",
         contentType := "", headers := [] },
       (hr.FetchRawResponse env).error) := by
  refine ⟨rfl, ?_⟩
  simp only [HTTPRequest.ExecuteWithMeta, hnone]
  rfl

/-- C10 witness: a request whose assembly fails (body and post data both set)
produces no response, yet `ExecuteWithMeta` returns the zero meta and the
configuration error. -/
theorem c10_nilResponse_zeroMeta_witness :
    (c10Request.FetchRawResponse c10Env).response = none ∧
    c10Request.ExecuteWithMeta c10Env =
      ({ statusCode := 0, contentLength := 0, contentEncoding := "",
         contentType := "", headers := [] }, some configurationError) :=
  ⟨rfl, (c10_nilResponse_zeroMeta c10Request c10Env rfl).2⟩
